import Mathlib

/-!
Shallow embedding of the authentication and session-token core of the
ts-http-server ("Chirpy") repository.

Timestamps are whole seconds since the epoch, modelled as `Int` (the code
compares `Date` values; only their ordering matters here).  The database
(PostgreSQL via drizzle-orm) is modelled as Lean lists of records; a
drizzle `select ... where eq` that destructures `[result]` becomes
`(filter ...).head?`, an `update ... where eq` becomes `map` with a
conditional record update (drizzle's `$onUpdate` on `updatedAt` bumps the
update timestamp on every row an update statement touches), and a
`delete ... where and(...)` becomes `filter` with the negated condition.

JavaScript strings are Lean `String`s; the two JS string operations the
guard uses, `split(' ')[1]` and `startsWith(p)`, are modelled on the
underlying character list (`splitChar` mirrors the semantics of a
single-character `String.prototype.split`, and `startsWith` is
`List.isPrefixOf` on the character data), which is observationally the
same and lets the lemmas proceed by list induction.

The HMAC-SHA256 signature of the `jsonwebtoken` library is modelled as a
perfect MAC: the signature of a payload under a secret is the pair
`(secret, payload)` itself, so that a signature verifies under a secret
iff it was produced over that payload with that same secret.
-/

namespace Chirpy

deriving instance DecidableEq for Except

/-- Error taxonomy of `src/api/errors.ts`, plus `jsTypeError` for a raw
JavaScript `TypeError` (e.g. reading a property of `undefined`), which is
not one of the custom error classes. -/
inductive HErr where
  | notFoundE
  | badRequestE
  | internalE
  | forbiddenE
  | unauthorizedE
  | jsTypeError
deriving DecidableEq

/-- The status mapping of `errorHandler` in `src/api/errorHandler.ts`:
each custom error class maps to its status, and any other `Error`
(including a `TypeError`) falls through to the 500 branch. -/
def errorHandler : HErr → Nat
  | .notFoundE => 404
  | .badRequestE => 400
  | .internalE => 500
  | .forbiddenE => 403
  | .unauthorizedE => 401
  | .jsTypeError => 500

/-- Character-list model of JavaScript `String.prototype.split` with a
single-character separator: `splitChar c l` never returns `[]`, keeps
empty fragments, and `"".split(c) = [""]`. -/
def splitChar (c : Char) : List Char → List (List Char)
  | [] => [[]]
  | x :: xs =>
    if x = c then [] :: splitChar c xs
    else (x :: (splitChar c xs).headD []) :: (splitChar c xs).tail

/-- JavaScript `s.split(c)` for a one-character separator `c`. -/
def jsSplit (s : String) (c : Char) : List String :=
  (splitChar c s.data).map String.mk

/-! ## Signed Access Token Codec (`makeJWT` / `validateJWT`, src/api/auth.ts) -/

/-- JWT payload as built by `makeJWT`: `{iss, sub, iat, exp}`.  `iss` and
`sub` are `Option` because a verified foreign token may omit them. -/
structure Payload where
  iss : Option String
  sub : Option String
  iat : Int
  exp : Int
deriving DecidableEq

/-- A signed compact token.  The signature is modelled as the pair of the
signing secret and the signed payload (perfect-MAC model of HMAC-SHA256). -/
structure Jwt where
  payload : Payload
  sig : String × Payload
deriving DecidableEq

/-- Failures of the `jsonwebtoken` library's `verify`. -/
inductive JwtError where
  | tokenExpired
  | jsonWebTokenError
deriving DecidableEq

/-- Model of `jwt.sign(payload, secret)` (no options passed). -/
def jwtSign (p : Payload) (secret : String) : Jwt :=
  ⟨p, (secret, p)⟩

/-- Model of `jwt.verify(token, secret)` (no options passed): checks the
signature, then the `exp` claim — expired exactly when `now >= exp`.  No
other claim (in particular not `iss`) is checked. -/
def jwtVerify (t : Jwt) (secret : String) (now : Int) : Except JwtError Payload :=
  if t.sig = (secret, t.payload) then
    if now ≥ t.payload.exp then .error .tokenExpired else .ok t.payload
  else .error .jsonWebTokenError

/-- `makeJWT(userId, expiresIn, secret)` from src/api/auth.ts: payload
`{iss: 'chirpy', sub: userId, iat: now, exp: now + expiresIn}` signed with
`secret`.  `now` (the current time in whole seconds) is explicit. -/
def makeJWT (userId : String) (expiresIn : Int) (secret : String) (now : Int) : Jwt :=
  jwtSign ⟨some "chirpy", some userId, now, now + expiresIn⟩ secret

/-- `validateJWT(tokenString, secret)` from src/api/auth.ts: verify, then
require a truthy string `sub` (`!payload.sub` is true in JS for a missing
or empty `sub`); both library failures become `UnauthorizedError`. -/
def validateJWT (t : Jwt) (secret : String) (now : Int) : Except HErr String :=
  match jwtVerify t secret now with
  | .error _ => .error .unauthorizedE
  | .ok p =>
    match p.sub with
    | none => .error .unauthorizedE
    | some s => if s = "" then .error .unauthorizedE else .ok s

/-! ## Data model (src/db/schema.ts) -/

/-- A row of the `users` table. -/
structure User where
  id : String
  createdAt : Int
  updatedAt : Int
  email : String
  hashedPassword : String
  isChirpyRed : Bool
deriving DecidableEq

/-- A row of the `chirps` table. -/
structure Chirp where
  id : String
  createdAt : Int
  updatedAt : Int
  body : String
  userId : String
deriving DecidableEq

/-- A row of the `refresh_tokens` table. -/
structure RefreshTokenRec where
  token : String
  createdAt : Int
  updatedAt : Int
  user_id : String
  expiresAt : Int
  revokedAt : Option Int
deriving DecidableEq

/-! ## Store queries (src/db/queries) -/

/-- `getUserByEmail` from src/db/queries/users.ts: `[result]` of a select
where `email` matches — `none` models JS `undefined`. -/
def getUserByEmail (db : List User) (email : String) : Option User :=
  (db.filter (fun u => u.email == email)).head?

/-- `getUserById` from src/db/queries/users.ts. -/
def getUserById (db : List User) (userId : String) : Option User :=
  (db.filter (fun u => u.id == userId)).head?

/-- `upgradeUser` from src/db/queries/users.ts: an update setting
`isChirpyRed := true` on rows whose `id` matches; the schema's `$onUpdate`
bumps `updatedAt` on every updated row. -/
def upgradeUser (db : List User) (userId : String) (now : Int) : List User :=
  db.map (fun u =>
    if u.id == userId then { u with isChirpyRed := true, updatedAt := now } else u)

/-- `getChirpById` from src/db/queries/chirps.ts. -/
def getChirpById (db : List Chirp) (chirpId : String) : Option Chirp :=
  (db.filter (fun c => c.id == chirpId)).head?

/-- `deleteChirp(chirpId, userId)` from src/db/queries/chirps.ts: deletes
rows matching `and(eq(chirps.id, chirpId), eq(chirps.userId, userId))`. -/
def deleteChirp (db : List Chirp) (chirpId : String) (userId : String) : List Chirp :=
  db.filter (fun c => !(c.id == chirpId && c.userId == userId))

/-- `getUserFromRefreshToken` from src/db/queries/tokens.ts: `[result]`
of a select where the token string matches. -/
def getUserFromRefreshToken (db : List RefreshTokenRec) (token : String) :
    Option RefreshTokenRec :=
  (db.filter (fun r => r.token == token)).head?

/-- `createRefreshToken(token, userId)` from src/db/queries/tokens.ts:
inserts a record with `expiresAt = now + 60 days` (5184000 seconds) and
`revokedAt = null`. -/
def createRefreshToken (db : List RefreshTokenRec) (token : String) (userId : String)
    (now : Int) : List RefreshTokenRec :=
  db ++ [⟨token, now, now, userId, now + 5184000, none⟩]

/-- `revokeRefreshToken(token)` from src/db/queries/tokens.ts: an update
setting `revokedAt := now` on rows whose token matches (the schema's
`$onUpdate` bumps `updatedAt`); touches nothing when no row matches. -/
def revokeRefreshToken (db : List RefreshTokenRec) (token : String) (now : Int) :
    List RefreshTokenRec :=
  db.map (fun r =>
    if r.token == token then { r with revokedAt := some now, updatedAt := now } else r)

/-! ## Authorization guard (src/api/auth.ts) -/

/-- `getBearerToken(req)` from src/api/auth.ts: reads the `Authorization`
header; throws `UnauthorizedError` when the header is absent or does not
start with `Bearer `; otherwise returns `authHeader.split(' ')[1]`.  The
`startsWith` test is `List.isPrefixOf` on the character data; the default
`""` of `getD` is unreachable because the header contains a space. -/
def getBearerToken (authHeader : Option String) : Except HErr String :=
  match authHeader with
  | none => .error .unauthorizedE
  | some h =>
    if "Bearer ".data.isPrefixOf h.data then .ok ((jsSplit h ' ').getD 1 "")
    else .error .unauthorizedE

/-- `getAPIKey(req)` from src/api/auth.ts: same shape as `getBearerToken`
with the `ApiKey ` header kind. -/
def getAPIKey (authHeader : Option String) : Except HErr String :=
  match authHeader with
  | none => .error .unauthorizedE
  | some h =>
    if "ApiKey ".data.isPrefixOf h.data then .ok ((jsSplit h ' ').getD 1 "")
    else .error .unauthorizedE

/-! ## Session Lifecycle Orchestrator (src/api/auth.ts handlers) -/

/-- The JSON body of a login request.  The handler destructures only
`email` and `password`; `expiresInSeconds` records a field a caller may
send, which the handler never reads. -/
structure LoginBody where
  email : Option String
  password : Option String
  expiresInSeconds : Option Int
deriving DecidableEq

/-- The 200 response of `handlerLogin` (password hash never included). -/
structure LoginOk where
  userId : String
  token : Jwt
  refreshToken : String
deriving DecidableEq

/-- `handlerLogin` from src/api/auth.ts.  `verify` stands for the bcrypt
`verifyPassword`; `rtok` stands for the `makeRefreshToken()` random hex
string; `now` is the current time.  Mirrors the code's order: the null
check on `email`/`password` (JS falsiness: `undefined` or `""`), then
`getUserByEmail`, then — before any null check on `user` — the property
access `user.hashedPassword`, which on a missing user is a `TypeError`
(`jsTypeError`), so the subsequent `if (!user || !isValid)` can only ever
fire for a failed password check.  On success the access token is minted
with the literal TTL 3600. -/
def handlerLogin (verify : String → String → Bool) (users : List User)
    (tokens : List RefreshTokenRec) (body : LoginBody) (rtok : String) (now : Int)
    (secret : String) : Except HErr (LoginOk × List RefreshTokenRec) :=
  match body.email, body.password with
  | some e, some p =>
    if e = "" ∨ p = "" then .error .badRequestE
    else
      match getUserByEmail users e with
      | none => .error .jsTypeError
      | some u =>
        if !(verify p u.hashedPassword) then .error .unauthorizedE
        else .ok (⟨u.id, makeJWT u.id 3600 secret now, rtok⟩,
                  createRefreshToken tokens rtok u.id now)
  | _, _ => .error .badRequestE

/-- `handlerRefresh` from src/api/auth.ts: extract the bearer (throws on a
bad header), throw `UnauthorizedError` on an empty token string, look the
token up, throw `UnauthorizedError` when the record is missing, when
`expiresAt < now`, or when `revokedAt` is not null; otherwise mint a new
access token for `record.user_id` with TTL 3600. -/
def handlerRefresh (db : List RefreshTokenRec) (authHeader : Option String) (now : Int)
    (secret : String) : Except HErr Jwt :=
  match getBearerToken authHeader with
  | .error e => .error e
  | .ok refreshToken =>
    if refreshToken = "" then .error .unauthorizedE
    else
      match getUserFromRefreshToken db refreshToken with
      | none => .error .unauthorizedE
      | some r =>
        if r.expiresAt < now ∨ r.revokedAt ≠ none then .error .unauthorizedE
        else .ok (makeJWT r.user_id 3600 secret now)

/-- `handlerRevoke` from src/api/auth.ts: extract the bearer (throws on a
bad header), revoke it in the store, respond 204 with the store's new
state (the revoke itself never fails). -/
def handlerRevoke (db : List RefreshTokenRec) (authHeader : Option String) (now : Int) :
    Except HErr (List RefreshTokenRec) :=
  match getBearerToken authHeader with
  | .error e => .error e
  | .ok t => .ok (revokeRefreshToken db t now)

/-- `handlerDeleteChirp` from src/api/chirps.ts, after its
`getBearerToken` + `validateJWT` steps have resolved the caller to
`userId` (the claims below concern requests carrying a valid access
token): fetch the chirp (404 when absent), compare `chirp.userId` with
the authenticated caller (403 when they differ), then delete and respond
204 with the store's new state. -/
def handlerDeleteChirp (db : List Chirp) (userId : String) (chirpId : String) :
    Except HErr (List Chirp) :=
  match getChirpById db chirpId with
  | none => .error .notFoundE
  | some c =>
    if c.userId ≠ userId then .error .forbiddenE
    else .ok (deleteChirp db chirpId userId)

/-! ## Webhook Idempotency Gate (handlerPolkaWebhook) -/

/-- `handlerPolkaWebhook`: extract the API key (throws on a bad header),
compare with the configured secret, return 204 untouched for any event
other than `user.upgraded`, 404 for an unknown user, 204 untouched for an
already-upgraded user, else upgrade and return 204 with the new store. -/
def handlerPolkaWebhook (users : List User) (authHeader : Option String)
    (polkaSecret : String) (event : String) (dataUserId : String) (now : Int) :
    Except HErr (List User) :=
  match getAPIKey authHeader with
  | .error e => .error e
  | .ok k =>
    if k ≠ polkaSecret then .error .unauthorizedE
    else if event ≠ "user.upgraded" then .ok users
    else
      match getUserById users dataUserId with
      | none => .error .notFoundE
      | some u =>
        if u.isChirpyRed then .ok users
        else .ok (upgradeUser users dataUserId now)

/-- A concrete stand-in credential checker (bcrypt itself is an external
binary dependency): a password verifies against a stored value exactly
when they are equal.  Used to instantiate the `verify` parameter of
`handlerLogin` on concrete inputs. -/
def plainVerify (password : String) (stored : String) : Bool :=
  password == stored

/-! ## Helper lemmas -/

/-- Splitting a list with no occurrence of the separator yields the whole
list as the single fragment. -/
theorem splitChar_no_sep (c : Char) (l : List Char) (h : c ∉ l) : splitChar c l = [l] := by
  induction l with
  | nil => rfl
  | cons x xs ih =>
    have hx : ¬ (x = c) := fun he => h (he ▸ List.mem_cons_self x xs)
    have hxs : c ∉ xs := fun hm => h (List.mem_cons_of_mem x hm)
    simp [splitChar, hx, ih hxs]

/-- Splitting a header that begins with the seven characters of
`Bearer ` peels off the fragment `Bearer`. -/
theorem splitChar_bearer (l : List Char) :
    splitChar ' ' ("Bearer ".data ++ l) = "Bearer".data :: splitChar ' ' l := rfl

/-- Splitting a header that begins with the seven characters of
`ApiKey ` peels off the fragment `ApiKey`. -/
theorem splitChar_apikey (l : List Char) :
    splitChar ' ' ("ApiKey ".data ++ l) = "ApiKey".data :: splitChar ' ' l := rfl

/-- Bearer extraction succeeds on `Bearer ` followed by a space-free
token and returns that token. -/
theorem getBearerToken_ok (t : String) (h : ' ' ∉ t.data) :
    getBearerToken (some ("Bearer " ++ t)) = .ok t := by
  have hpre : "Bearer ".data.isPrefixOf ("Bearer " ++ t).data = true := by
    rw [String.data_append, List.isPrefixOf_iff_prefix]
    exact List.prefix_append _ _
  have hsplit : jsSplit ("Bearer " ++ t) ' ' = ["Bearer", String.mk t.data] := by
    unfold jsSplit
    rw [String.data_append, splitChar_bearer, splitChar_no_sep ' ' t.data h]
    rfl
  simp [getBearerToken, hpre, hsplit]

/-- API-key extraction succeeds on `ApiKey ` followed by a space-free key
and returns that key. -/
theorem getAPIKey_ok (t : String) (h : ' ' ∉ t.data) :
    getAPIKey (some ("ApiKey " ++ t)) = .ok t := by
  have hpre : "ApiKey ".data.isPrefixOf ("ApiKey " ++ t).data = true := by
    rw [String.data_append, List.isPrefixOf_iff_prefix]
    exact List.prefix_append _ _
  have hsplit : jsSplit ("ApiKey " ++ t) ' ' = ["ApiKey", String.mk t.data] := by
    unfold jsSplit
    rw [String.data_append, splitChar_apikey, splitChar_no_sep ' ' t.data h]
    rfl
  simp [getAPIKey, hpre, hsplit]

/-- Looking a user up after `upgradeUser` finds the same first-matching
record with the upgrade flag set and the update timestamp bumped. -/
theorem getUserById_upgradeUser (users : List User) (uid : String) (now : Int) :
    getUserById (upgradeUser users uid now) uid
      = (getUserById users uid).map
          (fun u => { u with isChirpyRed := true, updatedAt := now }) := by
  induction users with
  | nil => rfl
  | cons u us ih =>
    by_cases h : (u.id == uid) = true
    · simp [getUserById, upgradeUser, h, List.filter]
    · simpa [getUserById, upgradeUser, h, List.filter] using ih

/-! ## Claim theorems -/

/-- C1 (amended): a refresh request whose bearer is the token string `t`
succeeds — returning a freshly minted access token for the record's
owning user — iff a record for `t` exists, its `revokedAt` is null, and
`now ≤ expiresAt`; it fails with Unauthorized when the record is missing,
revoked, or `expiresAt < now`.  At the boundary instant `now = expiresAt`
the token is therefore still usable, contrary to the original claim. -/
theorem refresh_token_usability (db : List RefreshTokenRec) (t : String) (now : Int)
    (secret : String) (hsp : ' ' ∉ t.data) (hne : t ≠ "") :
    (getUserFromRefreshToken db t = none →
      handlerRefresh db (some ("Bearer " ++ t)) now secret = .error .unauthorizedE)
    ∧ (∀ r, getUserFromRefreshToken db t = some r → r.revokedAt = none →
        now ≤ r.expiresAt →
        handlerRefresh db (some ("Bearer " ++ t)) now secret
          = .ok (makeJWT r.user_id 3600 secret now))
    ∧ (∀ r, getUserFromRefreshToken db t = some r →
        (r.revokedAt ≠ none ∨ r.expiresAt < now) →
        handlerRefresh db (some ("Bearer " ++ t)) now secret = .error .unauthorizedE) := by
  have hb := getBearerToken_ok t hsp
  refine ⟨?_, ?_, ?_⟩
  · intro hnone
    simp [handlerRefresh, hb, hne, hnone]
  · intro r hr hrev hexp
    have hc : ¬ (r.expiresAt < now ∨ r.revokedAt ≠ none) := by
      rintro (h | h)
      · omega
      · exact h hrev
    simp [handlerRefresh, hb, hne, hr, hc]
  · intro r hr hbad
    have hc : r.expiresAt < now ∨ r.revokedAt ≠ none := hbad.symm
    simp only [handlerRefresh, hb, hne, hr]
    simp [if_pos hc]

/-- Witness for C1: an unexpired, unrevoked token is exchanged for a new
access token. -/
theorem refresh_token_usability_witness :
    handlerRefresh [⟨"t", 0, 0, "u", 100, none⟩] (some ("Bearer " ++ "t")) 50 "sec"
      = .ok (makeJWT "u" 3600 "sec" 50) :=
  (refresh_token_usability [⟨"t", 0, 0, "u", 100, none⟩] "t" 50 "sec"
    (by decide) (by decide)).2.1 ⟨"t", 0, 0, "u", 100, none⟩ (by decide) rfl (by decide)

/-- Counterexample to C1 as stated: at the boundary instant
`now = expiresAt = 100` the code grants a new access token instead of the
Unauthorized failure the claim requires. -/
theorem refresh_boundary_counterexample :
    handlerRefresh [⟨"t", 0, 0, "u", 100, none⟩] (some "Bearer t") 100 "sec"
      = .ok (makeJWT "u" 3600 "sec" 100) := by decide

/-- C2 (code bug): a login whose email matches no stored user does not
fail Unauthorized — `handlerLogin` reads `user.hashedPassword` before its
`!user` guard, so the missing-user case is a JavaScript `TypeError`,
which `errorHandler` maps to 500; only the wrong-password case reaches
the intended 401. -/
theorem login_missing_user_typeerror :
    handlerLogin plainVerify [] [] ⟨some "a@b.c", some "pw", none⟩ "rt" 0 "sec"
      = .error .jsTypeError
    ∧ errorHandler .jsTypeError = 500
    ∧ handlerLogin plainVerify [⟨"u1", 0, 0, "a@b.c", "pw", false⟩] []
        ⟨some "a@b.c", some "wrong", none⟩ "rt" 0 "sec" = .error .unauthorizedE :=
  ⟨by decide, rfl, by decide⟩

/-- C3 (amended): for every non-empty user id, every positive TTL and
every secret, verifying immediately after issuing with the same secret
returns exactly the issued user id. -/
theorem jwt_roundtrip (userId : String) (ttl : Int) (secret : String) (now : Int)
    (hu : userId ≠ "") (ht : 0 < ttl) :
    validateJWT (makeJWT userId ttl secret now) secret now = .ok userId := by
  have hexp : ¬ (now ≥ now + ttl) := by omega
  simp [validateJWT, jwtVerify, makeJWT, jwtSign, hexp, hu]

/-- Witness for C3: the round trip at the test suite's own values. -/
theorem jwt_roundtrip_witness :
    validateJWT (makeJWT "123" 3600 "testSecret" 0) "testSecret" 0 = .ok "123" :=
  jwt_roundtrip "123" 3600 "testSecret" 0 (by decide) (by decide)

/-- Counterexample to C3 as stated: the empty user id is falsy in
JavaScript, so `validateJWT` rejects a token it itself just issued. -/
theorem jwt_roundtrip_empty_counterexample :
    validateJWT (makeJWT "" 3600 "s" 0) "s" 0 = .error .unauthorizedE := by decide

/-- C4: for an authenticated chirp-delete request, a missing chirp yields
NotFound for every caller; an existing chirp with a different recorded
owner yields Forbidden; and the delete can only ever succeed when the
caller is the recorded owner — the two failure kinds are never
conflated. -/
theorem delete_chirp_statuses (db : List Chirp) (uid cid : String) :
    (getChirpById db cid = none → handlerDeleteChirp db uid cid = .error .notFoundE)
    ∧ (∀ c, getChirpById db cid = some c → c.userId ≠ uid →
        handlerDeleteChirp db uid cid = .error .forbiddenE)
    ∧ (∀ c res, getChirpById db cid = some c → handlerDeleteChirp db uid cid = .ok res →
        c.userId = uid ∧ res = deleteChirp db cid uid) := by
  refine ⟨?_, ?_, ?_⟩
  · intro h
    simp [handlerDeleteChirp, h]
  · intro c hc hne
    simp [handlerDeleteChirp, hc, hne]
  · intro c res hc hok
    by_cases h : c.userId = uid
    · refine ⟨h, ?_⟩
      simp [handlerDeleteChirp, hc, h] at hok
      exact hok.symm
    · simp [handlerDeleteChirp, hc, h] at hok

/-- Witness for C4: caller A deleting B's existing chirp gets
Forbidden. -/
theorem delete_chirp_statuses_witness :
    handlerDeleteChirp [⟨"c1", 0, 0, "hello", "B"⟩] "A" "c1" = .error .forbiddenE :=
  (delete_chirp_statuses [⟨"c1", 0, 0, "hello", "B"⟩] "A" "c1").2.1
    ⟨"c1", 0, 0, "hello", "B"⟩ (by decide) (by decide)

/-- C5: revoking the same token string twice at the same instant leaves
the store exactly as after the first call; revoking a token with no
matching record is a no-op rather than an error; and the revoke endpoint
responds success for every syntactically valid bearer regardless of the
token's prior state. -/
theorem revoke_idempotent (db : List RefreshTokenRec) (t : String) (now : Int)
    (hsp : ' ' ∉ t.data) :
    revokeRefreshToken (revokeRefreshToken db t now) t now = revokeRefreshToken db t now
    ∧ ((∀ r ∈ db, r.token ≠ t) → revokeRefreshToken db t now = db)
    ∧ handlerRevoke db (some ("Bearer " ++ t)) now = .ok (revokeRefreshToken db t now) := by
  refine ⟨?_, ?_, ?_⟩
  · unfold revokeRefreshToken
    rw [List.map_map]
    apply List.map_congr_left
    intro r _
    by_cases h : (r.token == t) = true
    · simp [Function.comp, h]
    · simp [Function.comp, h]
  · intro hall
    unfold revokeRefreshToken
    have hid : ∀ r ∈ db,
        (if r.token == t then { r with revokedAt := some now, updatedAt := now } else r)
          = id r := by
      intro r hr
      have : ¬ ((r.token == t) = true) := by
        simp only [beq_iff_eq]
        exact hall r hr
      simp [this]
    rw [List.map_congr_left hid, List.map_id]
  · simp [handlerRevoke, getBearerToken_ok t hsp]

/-- Witness for C5: double revocation of a live token converges, and the
endpoint answers success. -/
theorem revoke_idempotent_witness :
    revokeRefreshToken (revokeRefreshToken [⟨"t", 0, 0, "u", 100, none⟩] "t" 5) "t" 5
      = revokeRefreshToken [⟨"t", 0, 0, "u", 100, none⟩] "t" 5
    ∧ handlerRevoke [⟨"t", 0, 0, "u", 100, none⟩] (some ("Bearer " ++ "t")) 5
      = .ok (revokeRefreshToken [⟨"t", 0, 0, "u", 100, none⟩] "t" 5) :=
  ⟨(revoke_idempotent [⟨"t", 0, 0, "u", 100, none⟩] "t" 5 (by decide)).1,
   (revoke_idempotent [⟨"t", 0, 0, "u", 100, none⟩] "t" 5 (by decide)).2.2⟩

/-- C6: with the correct API key, any event other than `user.upgraded`
succeeds without touching the store; a `user.upgraded` event for an
unknown user fails NotFound; and after any successful `user.upgraded`
delivery, redelivering the identical payload succeeds while leaving the
store exactly as it was, with the target user upgraded. -/
theorem webhook_idempotent (users : List User) (key ev uid : String) (now now2 : Int)
    (hsp : ' ' ∉ key.data) :
    (ev ≠ "user.upgraded" →
      handlerPolkaWebhook users (some ("ApiKey " ++ key)) key ev uid now = .ok users)
    ∧ (getUserById users uid = none →
      handlerPolkaWebhook users (some ("ApiKey " ++ key)) key "user.upgraded" uid now
        = .error .notFoundE)
    ∧ (∀ users2,
        handlerPolkaWebhook users (some ("ApiKey " ++ key)) key "user.upgraded" uid now
          = .ok users2 →
        handlerPolkaWebhook users2 (some ("ApiKey " ++ key)) key "user.upgraded" uid now2
          = .ok users2
        ∧ ∃ u2, getUserById users2 uid = some u2 ∧ u2.isChirpyRed = true) := by
  have hk := getAPIKey_ok key hsp
  refine ⟨?_, ?_, ?_⟩
  · intro hev
    simp [handlerPolkaWebhook, hk, hev]
  · intro hnone
    simp [handlerPolkaWebhook, hk, hnone]
  · intro users2 h
    simp only [handlerPolkaWebhook, hk] at h
    rw [if_neg (by simp)] at h
    rw [if_neg (by simp)] at h
    cases hlook : getUserById users uid with
    | none => rw [hlook] at h; cases h
    | some u =>
      rw [hlook] at h
      by_cases hred : u.isChirpyRed
      · simp [hred] at h
        subst h
        constructor
        · simp [handlerPolkaWebhook, hk, hlook, hred]
        · exact ⟨u, hlook, hred⟩
      · simp [hred] at h
        subst h
        have hup := getUserById_upgradeUser users uid now
        rw [hlook] at hup
        constructor
        · simp [handlerPolkaWebhook, hk, hup]
        · exact ⟨_, hup, rfl⟩

/-- Witness for C6: redelivering the upgrade event to the already-written
store succeeds and performs no further write. -/
theorem webhook_idempotent_witness :
    handlerPolkaWebhook (upgradeUser [⟨"u1", 0, 0, "a@b", "pw", false⟩] "u1" 7)
        (some ("ApiKey " ++ "k")) "k" "user.upgraded" "u1" 9
      = .ok (upgradeUser [⟨"u1", 0, 0, "a@b", "pw", false⟩] "u1" 7) :=
  ((webhook_idempotent [⟨"u1", 0, 0, "a@b", "pw", false⟩] "k" "user.upgraded" "u1" 7 9
      (by decide)).2.2
    (upgradeUser [⟨"u1", 0, 0, "a@b", "pw", false⟩] "u1" 7) (by decide)).1

/-- C7 (amended): every successful login issues its access token with
`iat = now` and `exp = now + 3600` — the TTL is always exactly 3600
seconds, because the handler never reads a caller-requested TTL from the
request body. -/
theorem login_ttl_always_3600 (verify : String → String → Bool) (users : List User)
    (tokens : List RefreshTokenRec) (body : LoginBody) (rtok : String) (now : Int)
    (secret : String) (res : LoginOk × List RefreshTokenRec)
    (h : handlerLogin verify users tokens body rtok now secret = .ok res) :
    res.1.token.payload.iat = now ∧ res.1.token.payload.exp = now + 3600 := by
  unfold handlerLogin at h
  split at h
  · split at h
    · cases h
    · split at h
      · cases h
      · split at h
        · cases h
        · simp only [Except.ok.injEq] at h
          subst h
          exact ⟨rfl, rfl⟩
  · cases h

/-- Witness for C7: a concrete successful login gets a 3600-second
token. -/
theorem login_ttl_always_3600_witness :
    ((⟨"u1", makeJWT "u1" 3600 "sec" 0, "rt"⟩, createRefreshToken [] "rt" "u1" 0) :
        LoginOk × List RefreshTokenRec).1.token.payload.iat = 0
    ∧ ((⟨"u1", makeJWT "u1" 3600 "sec" 0, "rt"⟩, createRefreshToken [] "rt" "u1" 0) :
        LoginOk × List RefreshTokenRec).1.token.payload.exp = 0 + 3600 :=
  login_ttl_always_3600 plainVerify [⟨"u1", 0, 0, "a@b.c", "pw", false⟩] []
    ⟨some "a@b.c", some "pw", some 60⟩ "rt" 0 "sec"
    (⟨"u1", makeJWT "u1" 3600 "sec" 0, "rt"⟩, createRefreshToken [] "rt" "u1" 0)
    (by decide)

/-- Counterexample to C7 as stated: a login requesting a 60-second TTL
(which the claimed clamped policy would honour, since 0 < 60 ≤ 3600) is
issued a token whose lifetime is 3600 seconds, not 60. -/
theorem login_ttl_ignored_counterexample :
    (handlerLogin plainVerify [⟨"u1", 0, 0, "a@b.c", "pw", false⟩] []
        ⟨some "a@b.c", some "pw", some 60⟩ "rt" 0 "sec").map
      (fun x => x.1.token.payload.exp - x.1.token.payload.iat) = .ok 3600
    ∧ (3600 : Int) ≠ 60 :=
  ⟨by decide, by decide⟩

/-- C8 (amended): an absent header, or one not prefixed `Bearer `, fails
Unauthorized; a header `Bearer ` followed by a space-free token returns
that whole token; in general the extractor returns only the fragment of
the suffix before its first further space (`split(' ')[1]`), dropping any
characters after it, contrary to the original claim. -/
theorem bearer_extraction (t : String) (s : String) :
    getBearerToken none = .error .unauthorizedE
    ∧ (' ' ∉ t.data → getBearerToken (some ("Bearer " ++ t)) = .ok t)
    ∧ ("Bearer ".data.isPrefixOf s.data = false →
        getBearerToken (some s) = .error .unauthorizedE)
    ∧ getBearerToken (some ("Bearer " ++ t))
        = .ok (String.mk ((splitChar ' ' t.data).headD [])) := by
  refine ⟨rfl, fun h => getBearerToken_ok t h, ?_, ?_⟩
  · intro hnp
    simp [getBearerToken, hnp]
  · have hpre : "Bearer ".data.isPrefixOf ("Bearer " ++ t).data = true := by
      rw [String.data_append, List.isPrefixOf_iff_prefix]
      exact List.prefix_append _ _
    simp only [getBearerToken, hpre, if_true]
    unfold jsSplit
    rw [String.data_append, splitChar_bearer]
    cases hl : splitChar ' ' t.data with
    | nil => rfl
    | cons a as => rfl

/-- Witness for C8: a space-free token is returned whole. -/
theorem bearer_extraction_witness :
    getBearerToken (some ("Bearer " ++ "tok123")) = .ok "tok123" :=
  (bearer_extraction "tok123" "x").2.1 (by decide)

/-- Counterexample to C8 as stated: for the header `Bearer abc def` the
extractor returns `abc`, not the entire suffix `abc def`. -/
theorem bearer_space_counterexample :
    getBearerToken (some "Bearer abc def") = .ok "abc"
    ∧ getBearerToken (some "Bearer abc def") ≠ .ok "abc def" :=
  ⟨by decide, by decide⟩

/-- C9 (amended): verification never checks the issuer — a token signed
with the correct secret, carrying an unexpired `exp` and a NON-EMPTY
string `sub`, verifies to that `sub` even though its `iss` is absent or
differs from the constant `chirpy` that issuance always embeds.  The
non-emptiness restriction is forced by the counterexample below: for
`sub = ""` the JavaScript-falsy `!payload.sub` check rejects the token,
so the original claim's quantification over every string `sub` fails. -/
theorem issuer_not_checked (p : Payload) (secret : String) (now : Int) (s : String)
    (hsub : p.sub = some s) (hne : s ≠ "") (hexp : now < p.exp)
    (_hiss : p.iss ≠ some "chirpy") :
    validateJWT ⟨p, (secret, p)⟩ secret now = .ok s := by
  have h1 : ¬ ((now : Int) ≥ p.exp) := by omega
  simp [validateJWT, jwtVerify, h1, hsub, hne]

/-- Witness for C9: a token with no issuer at all still verifies. -/
theorem issuer_not_checked_witness :
    validateJWT ⟨⟨none, some "u1", 0, 10⟩, ("sec", ⟨none, some "u1", 0, 10⟩)⟩ "sec" 0
      = .ok "u1" :=
  issuer_not_checked ⟨none, some "u1", 0, 10⟩ "sec" 0 "u1" rfl (by decide) (by decide)
    (by decide)

/-- Counterexample to C9 as stated: a correctly signed, unexpired token
whose `sub` is the (falsy) empty string — with `iss` absent, as the claim
allows — is rejected with Unauthorized instead of verifying to its
`sub`. -/
theorem issuer_empty_sub_counterexample :
    validateJWT ⟨⟨none, some "", 0, 10⟩, ("sec", ⟨none, some "", 0, 10⟩)⟩ "sec" 0
      = .error .unauthorizedE := by decide

/-- C10: the store-level delete filters on both the chirp id and the
caller's user id, so every chirp whose recorded owner differs from the
caller survives the operation unchanged, and a row can only be removed
when both its id and its owner match. -/
theorem delete_chirp_owner_scoped (db : List Chirp) (cid uid : String) (c : Chirp) :
    (c ∈ db → c.userId ≠ uid → c ∈ deleteChirp db cid uid)
    ∧ (c ∈ db → c ∉ deleteChirp db cid uid → c.id = cid ∧ c.userId = uid) := by
  constructor
  · intro hm hne
    unfold deleteChirp
    rw [List.mem_filter]
    refine ⟨hm, ?_⟩
    simp [hne]
  · intro hm hnm
    unfold deleteChirp at hnm
    rw [List.mem_filter] at hnm
    simp [hm] at hnm
    exact hnm

/-- Witness for C10: deleting chirp `c1` as caller A leaves B's chirp
`c1` in the store. -/
theorem delete_chirp_owner_scoped_witness :
    (⟨"c1", 0, 0, "hi", "B"⟩ : Chirp)
      ∈ deleteChirp [⟨"c1", 0, 0, "hi", "B"⟩, ⟨"c2", 0, 0, "yo", "A"⟩] "c1" "A" :=
  (delete_chirp_owner_scoped [⟨"c1", 0, 0, "hi", "B"⟩, ⟨"c2", 0, 0, "yo", "A"⟩] "c1" "A"
    ⟨"c1", 0, 0, "hi", "B"⟩).1 (by decide) (by decide)

end Chirpy
